import Mathlib

/-!
Verification of the `EmptyCard` presentational component
(src/web/src/components/card/EmptyCard.tsx).

The component is a pure view function: given a configuration record it
returns a tree of rendered nodes.  We embed the JSX value semantics
shallowly: a child position in JSX may hold an element, a string, a
number, or a "nothing" value (JavaScript undefined, null, false, true),
which React does not render.  The external UI primitives Heading, Button
and Link are modelled as opaque elements carrying their props, the way a
shallow render treats them; the component never inspects their insides.
-/

/-- A rendered React child value.  `omitted` stands for the JavaScript
values (undefined, null, false, true) that React renders as nothing;
`text` a string child, `number` a numeric child (React renders its
decimal representation, so `number 0` shows as the text "0"), and
`elem tag attrs children` an element. -/
inductive Node : Type where
  | omitted : Node
  | text : String → Node
  | number : Nat → Node
  | elem : String → List (String × String) → List Node → Node
deriving Repr

/-- True exactly on the child values React renders as nothing. -/
def Node.isOmitted : Node → Bool
  | .omitted => true
  | _ => false

/-- The direct children of an element node (empty for non-elements). -/
def directChildren : Node → List Node
  | .elem _ _ cs => cs
  | _ => []

/-- The direct children that React actually renders, i.e. with the
nothing-values dropped. -/
def visibleChildren (n : Node) : List Node :=
  (directChildren n).filter (fun c => !c.isOmitted)

/-- The value of an attribute on an element node. -/
def attrOf (name : String) : Node → Option String
  | .elem _ attrs _ => (attrs.find? (fun a => a.1 == name)).map (·.2)
  | _ => none

mutual

/-- All nodes in a tree satisfying the predicate, in document order. -/
def collect (pred : Node → Bool) : Node → List Node
  | .omitted => if pred .omitted then [.omitted] else []
  | .text s => if pred (.text s) then [.text s] else []
  | .number k => if pred (.number k) then [.number k] else []
  | .elem t a cs =>
      (if pred (.elem t a cs) then [Node.elem t a cs] else []) ++ collectList pred cs

/-- All nodes in a forest satisfying the predicate, in document order. -/
def collectList (pred : Node → Bool) : List Node → List Node
  | [] => []
  | c :: cs => collect pred c ++ collectList pred cs

end

/-- Recognises the action element: a Button element. -/
def isButton : Node → Bool
  | .elem t _ _ => t == "Button"
  | _ => false

/-- Recognises the description line: a div carrying the description class
list. -/
def isDescLine : Node → Bool
  | .elem t attrs _ =>
      t == "div" &&
        attrs.any (fun a => a.1 == "className" && a.2 == "mb-3 text-secondary-foreground")
  | _ => false

/-- The configuration of the empty-state card, mirroring EmptyCardProps:
className, description, buttonText and link are optional; icon and title
are required. -/
structure EmptyCardProps : Type where
  className : Option String
  icon : Node
  title : String
  description : Option String
  buttonText : Option String
  link : Option String

/-- Modelled from the spec: the class-combining helper cn (imported from
src/web/src/lib/utils, whose source is not part of the corpus) merges a
base class string with an optional extra class; modelled as
space-separated concatenation, skipping an absent or empty extra. -/
def cn (base : String) : Option String → String
  | none => base
  | some extra => if extra = "" then base else base ++ " " ++ extra

/-- The child produced by the guard (description && div...): JavaScript
undefined when description is absent, the (falsy, hence returned) empty
string itself when it is empty, and the description div otherwise. -/
def descriptionChild : Option String → Node
  | none => .omitted
  | some s =>
      if s = "" then .text s
      else .elem "div" [("className", "mb-3 text-secondary-foreground")] [.text s]

/-- The child produced by the guard (buttonText?.length && Button...):
JavaScript undefined when buttonText is absent, the (falsy, hence
returned) length 0 when it is empty, and otherwise the Button wrapping a
Link whose target is link when supplied and "#" otherwise. -/
def buttonChild : Option String → Option String → Node
  | none, _ => .omitted
  | some s, link =>
      if s.length = 0 then .number 0
      else
        .elem "Button" [("size", "sm"), ("variant", "select")]
          [.elem "Link" [("to", link.getD "#")] [.text s]]

/-- The render function of src/web/src/components/card/EmptyCard.tsx: a
div with the merged class list, containing the icon, the Heading (the
Heading primitive is modelled as an opaque element carrying its props),
the guarded description line and the guarded action. -/
def EmptyCard (p : EmptyCardProps) : Node :=
  .elem "div" [("className", cn "flex flex-col items-center gap-2" p.className)]
    [ p.icon
    , .elem "Heading" [("as", "h4")] [.text p.title]
    , descriptionChild p.description
    , buttonChild p.buttonText p.link ]

example :
    EmptyCard ⟨none, .text "I", "T", none, none, none⟩ =
      .elem "div" [("className", "flex flex-col items-center gap-2")]
        [ .text "I"
        , .elem "Heading" [("as", "h4")] [.text "T"]
        , .omitted
        , .omitted ] := rfl

/-! Helper lemmas about the sub-trees a card is built from. -/

theorem length_ne_zero_of_ne_empty (s : String) (h : s ≠ "") : s.length ≠ 0 := by
  intro hl
  apply h
  cases s with
  | mk data =>
    cases data with
    | nil => rfl
    | cons c cs => simp [String.length] at hl

theorem collect_isButton_descriptionChild (d : Option String) :
    collect isButton (descriptionChild d) = [] := by
  cases d with
  | none => rfl
  | some s =>
    by_cases h : s = "" <;>
      simp [descriptionChild, h, collect, collectList, isButton]

theorem collect_isButton_buttonChild_some (s : String) (l : Option String)
    (h : s ≠ "") :
    collect isButton (buttonChild (some s) l) =
      [Node.elem "Button" [("size", "sm"), ("variant", "select")]
        [.elem "Link" [("to", l.getD "#")] [.text s]]] := by
  simp [buttonChild, length_ne_zero_of_ne_empty s h, collect, collectList, isButton]

theorem collect_isButton_buttonChild_falsy (bt : Option String) (l : Option String)
    (h : bt = none ∨ bt = some "") :
    collect isButton (buttonChild bt l) = [] := by
  rcases h with h | h <;> subst h <;> rfl

theorem cn_ne_descClass (cl : Option String) :
    cn "flex flex-col items-center gap-2" cl ≠ "mb-3 text-secondary-foreground" := by
  cases cl with
  | none => decide
  | some c =>
    by_cases hc : c = ""
    · simp [cn, hc]
    · intro h
      have h2 : "flex flex-col items-center gap-2" ++ " " ++ c =
          "mb-3 text-secondary-foreground" := by
        rw [← h]; simp [cn, hc]
      have := congrArg String.length h2
      simp only [String.length_append] at this
      rw [show ("flex flex-col items-center gap-2").length = 32 from rfl,
        show (" ").length = 1 from rfl,
        show ("mb-3 text-secondary-foreground").length = 30 from rfl] at this
      omega

theorem collect_isDescLine_buttonChild (bt : Option String) (l : Option String) :
    collect isDescLine (buttonChild bt l) = [] := by
  cases bt with
  | none => rfl
  | some s =>
    by_cases h : s.length = 0 <;>
      simp [buttonChild, h, collect, collectList, isDescLine]

theorem collect_isDescLine_descriptionChild_falsy (d : Option String)
    (h : d = none ∨ d = some "") :
    collect isDescLine (descriptionChild d) = [] := by
  rcases h with h | h <;> subst h <;> rfl

theorem cn_beq_descClass (cl : Option String) :
    (cn "flex flex-col items-center gap-2" cl == "mb-3 text-secondary-foreground") = false := by
  rw [beq_eq_false_iff_ne]
  exact cn_ne_descClass cl

/-! The claims. -/

/-- C1: for every configuration where buttonText is a non-empty string,
the render output contains exactly one action element, a Button wrapping
a Link, whose label is buttonText and whose navigation target is the
supplied link, or the fallback "#" when link is absent.  (The supplied
icon is an arbitrary foreign node, so it is assumed to contain no Button
of its own.) -/
theorem emptyCard_action_present (p : EmptyCardProps) (s : String)
    (hbt : p.buttonText = some s) (hne : s ≠ "")
    (hicon : collect isButton p.icon = []) :
    collect isButton (EmptyCard p) =
      [Node.elem "Button" [("size", "sm"), ("variant", "select")]
        [.elem "Link" [("to", p.link.getD "#")] [.text s]]] := by
  simp [EmptyCard, collect, collectList, isButton, hbt, hicon,
    collect_isButton_descriptionChild,
    collect_isButton_buttonChild_some s p.link hne]

theorem emptyCard_action_present_witness :
    collect isButton (EmptyCard ⟨none, .text "I", "T", none, some "Add", some "/new"⟩) =
      [Node.elem "Button" [("size", "sm"), ("variant", "select")]
        [.elem "Link" [("to", "/new")] [.text "Add"]]] :=
  emptyCard_action_present ⟨none, .text "I", "T", none, some "Add", some "/new"⟩
    "Add" rfl (by decide) rfl

/-- C2: for every configuration where buttonText is empty or absent, the
render output contains no action element (no Button).  (The supplied
icon is assumed to contain no Button of its own.) -/
theorem emptyCard_action_absent (p : EmptyCardProps)
    (hbt : p.buttonText = none ∨ p.buttonText = some "")
    (hicon : collect isButton p.icon = []) :
    collect isButton (EmptyCard p) = [] := by
  simp [EmptyCard, collect, collectList, isButton, hicon,
    collect_isButton_descriptionChild,
    collect_isButton_buttonChild_falsy p.buttonText p.link hbt]

theorem emptyCard_action_absent_witness :
    collect isButton (EmptyCard ⟨none, .text "I", "T", none, none, none⟩) = [] :=
  emptyCard_action_absent ⟨none, .text "I", "T", none, none, none⟩ (Or.inl rfl) rfl

/-- C3: for every configuration lacking a description, the render output
contains no description line.  (The supplied icon is assumed to contain
no description-classed div of its own.) -/
theorem emptyCard_no_description_line (p : EmptyCardProps)
    (hd : p.description = none)
    (hicon : collect isDescLine p.icon = []) :
    collect isDescLine (EmptyCard p) = [] := by
  simp [EmptyCard, collect, collectList, isDescLine, hicon, hd, descriptionChild,
    collect_isDescLine_buttonChild, cn_beq_descClass]

theorem emptyCard_no_description_line_witness :
    collect isDescLine (EmptyCard ⟨none, .text "I", "T", none, some "Add", none⟩) = [] :=
  emptyCard_no_description_line ⟨none, .text "I", "T", none, some "Add", none⟩ rfl rfl

theorem buttonChild_empty (l : Option String) : buttonChild (some "") l = .number 0 := rfl

theorem isOmitted_omitted : Node.omitted.isOmitted = true := rfl

theorem isOmitted_text (s : String) : (Node.text s).isOmitted = false := rfl

theorem isOmitted_number (k : Nat) : (Node.number k).isOmitted = false := rfl

theorem isOmitted_elem (t : String) (a : List (String × String)) (cs : List Node) :
    (Node.elem t a cs).isOmitted = false := rfl

/-- C4: for the configuration title="No items" with description and
buttonText absent, the rendered output contains only the icon and the
heading, and nothing else (the icon is assumed to be an actual node, not
a nothing-value). -/
theorem emptyCard_minimal_scenario (icon : Node) (cl l : Option String)
    (hicon : icon.isOmitted = false) :
    visibleChildren (EmptyCard ⟨cl, icon, "No items", none, none, l⟩) =
      [icon, .elem "Heading" [("as", "h4")] [.text "No items"]] := by
  simp [EmptyCard, visibleChildren, directChildren, descriptionChild, buttonChild,
    isOmitted_omitted, isOmitted_elem, hicon]

theorem emptyCard_minimal_scenario_witness :
    visibleChildren (EmptyCard ⟨none, .text "I", "No items", none, none, none⟩) =
      [.text "I", .elem "Heading" [("as", "h4")] [.text "No items"]] :=
  emptyCard_minimal_scenario (.text "I") none none rfl

/-- C5: for the configuration title="No items",
description="Add one to get started", buttonText="Add", link="/new", the
rendered output contains, in order, the icon, the heading with the
title, the description line, and the action labeled "Add" targeting
"/new". -/
theorem emptyCard_full_scenario (icon : Node) (cl : Option String)
    (hicon : icon.isOmitted = false) :
    visibleChildren
        (EmptyCard ⟨cl, icon, "No items", some "Add one to get started",
          some "Add", some "/new"⟩) =
      [ icon
      , .elem "Heading" [("as", "h4")] [.text "No items"]
      , .elem "div" [("className", "mb-3 text-secondary-foreground")]
          [.text "Add one to get started"]
      , .elem "Button" [("size", "sm"), ("variant", "select")]
          [.elem "Link" [("to", "/new")] [.text "Add"]] ] := by
  simp [EmptyCard, visibleChildren, directChildren, descriptionChild, buttonChild,
    isOmitted_omitted, isOmitted_elem, hicon, show ("Add").length = 3 from rfl]

theorem emptyCard_full_scenario_witness :
    visibleChildren
        (EmptyCard ⟨none, .text "I", "No items", some "Add one to get started",
          some "Add", some "/new"⟩) =
      [ .text "I"
      , .elem "Heading" [("as", "h4")] [.text "No items"]
      , .elem "div" [("className", "mb-3 text-secondary-foreground")]
          [.text "Add one to get started"]
      , .elem "Button" [("size", "sm"), ("variant", "select")]
          [.elem "Link" [("to", "/new")] [.text "Add"]] ] :=
  emptyCard_full_scenario (.text "I") none rfl

/-- C6: rendering never fails: for every configuration the render
function produces a well-formed container element (it is a total
function of the configuration), and an absent optional field contributes
nothing to the output: with no description the output has no description
line beyond whatever the caller-supplied icon holds, and with no
buttonText it has no Button beyond the icon's. -/
theorem emptyCard_total (p : EmptyCardProps) :
    (∃ attrs cs, EmptyCard p = Node.elem "div" attrs cs) ∧
    (p.description = none →
      collect isDescLine (EmptyCard p) = collect isDescLine p.icon) ∧
    (p.buttonText = none →
      collect isButton (EmptyCard p) = collect isButton p.icon) := by
  refine ⟨⟨_, _, rfl⟩, fun hd => ?_, fun hbt => ?_⟩
  · simp [EmptyCard, collect, collectList, isDescLine, hd, descriptionChild,
      collect_isDescLine_buttonChild, cn_beq_descClass]
  · simp [EmptyCard, collect, collectList, isButton, hbt, buttonChild,
      collect_isButton_descriptionChild]

theorem emptyCard_total_witness :
    (∃ attrs cs,
      EmptyCard ⟨none, .text "I", "T", none, none, none⟩ = Node.elem "div" attrs cs) ∧
    collect isDescLine (EmptyCard ⟨none, .text "I", "T", none, none, none⟩) =
      collect isDescLine (Node.text "I") ∧
    collect isButton (EmptyCard ⟨none, .text "I", "T", none, none, none⟩) =
      collect isButton (Node.text "I") :=
  ⟨(emptyCard_total ⟨none, .text "I", "T", none, none, none⟩).1,
   (emptyCard_total ⟨none, .text "I", "T", none, none, none⟩).2.1 rfl,
   (emptyCard_total ⟨none, .text "I", "T", none, none, none⟩).2.2 rfl⟩

/-- C7: rendering is a deterministic pure function of the configuration:
equal configurations render to equal outputs.  Purity holds by
construction of the embedding: the render function returns a value and
has no effect type, so rendering itself performs no side effect. -/
theorem emptyCard_deterministic (p q : EmptyCardProps) (h : p = q) :
    EmptyCard p = EmptyCard q := by rw [h]

theorem emptyCard_deterministic_witness :
    EmptyCard ⟨none, .text "I", "T", none, none, none⟩ =
      EmptyCard ⟨none, .text "I", "T", none, none, none⟩ :=
  emptyCard_deterministic ⟨none, .text "I", "T", none, none, none⟩
    ⟨none, .text "I", "T", none, none, none⟩ rfl

/-- C8: for every configuration whose description is the empty string
(not merely absent), the render output still contains no description
line, because the guard tests the string's truthiness. -/
theorem emptyCard_empty_description (p : EmptyCardProps)
    (hd : p.description = some "")
    (hicon : collect isDescLine p.icon = []) :
    collect isDescLine (EmptyCard p) = [] := by
  simp [EmptyCard, collect, collectList, isDescLine, hicon, hd, descriptionChild,
    collect_isDescLine_buttonChild, cn_beq_descClass]

theorem emptyCard_empty_description_witness :
    collect isDescLine (EmptyCard ⟨none, .text "I", "T", some "", none, none⟩) = [] :=
  emptyCard_empty_description ⟨none, .text "I", "T", some "", none, none⟩ rfl rfl

/-- C9: the action guard is buttonText?.length, so when buttonText is
the empty string the guard yields the number 0 and that 0 appears as a
rendered child in the action position (React shows a numeric child as
its decimal text, a stray "0"), whereas when buttonText is absent the
guard yields undefined and nothing is emitted in that position. -/
theorem emptyCard_empty_buttonText_zero (p : EmptyCardProps) :
    (p.buttonText = some "" →
      (directChildren (EmptyCard p))[3]? = some (Node.number 0)) ∧
    (p.buttonText = none →
      (directChildren (EmptyCard p))[3]? = some Node.omitted) := by
  constructor <;> intro h <;>
    simp [EmptyCard, directChildren, h, buttonChild_empty, buttonChild]

theorem emptyCard_empty_buttonText_zero_witness :
    (directChildren (EmptyCard ⟨none, .text "I", "T", none, some "", none⟩))[3]? =
      some (Node.number 0) ∧
    (directChildren (EmptyCard ⟨none, .text "I", "T", none, none, none⟩))[3]? =
      some Node.omitted :=
  ⟨(emptyCard_empty_buttonText_zero ⟨none, .text "I", "T", none, some "", none⟩).1 rfl,
   (emptyCard_empty_buttonText_zero ⟨none, .text "I", "T", none, none, none⟩).2 rfl⟩

/-- C10: for every configuration the output is a single container whose
class string always starts with the base classes
"flex flex-col items-center gap-2", extended exactly by the optional
className, and whose first two children are always the icon followed by
the h4 heading containing the title. -/
theorem emptyCard_container_invariant (p : EmptyCardProps) :
    (∃ t, attrOf "className" (EmptyCard p) =
        some ("flex flex-col items-center gap-2" ++ t) ∧
      (t = "" ∨ ∃ c, p.className = some c ∧ t = " " ++ c)) ∧
    (directChildren (EmptyCard p)).take 2 =
      [p.icon, Node.elem "Heading" [("as", "h4")] [Node.text p.title]] := by
  constructor
  · cases hcl : p.className with
    | none => exact ⟨"", by simp [EmptyCard, attrOf, cn, hcl], Or.inl rfl⟩
    | some c =>
      by_cases hc : c = ""
      · exact ⟨"", by simp [EmptyCard, attrOf, cn, hcl, hc], Or.inl rfl⟩
      · refine ⟨" " ++ c, ?_, Or.inr ⟨c, rfl, rfl⟩⟩
        rw [← String.append_assoc]
        simp [EmptyCard, attrOf, cn, hcl, hc]
  · simp [EmptyCard, directChildren]
